import Mathlib

/-!
# Verification of the anonymous-voting client core

Shallow embedding of the voter-facing client core of the repository
(`src/site/js/fingerprint.js` — the fingerprint generator and the
Supabase API layer concatenated in that file — together with
`src/site/js/voting.js` and `src/admin/js/api.js`), and proofs of the
specification's claims about it.

Conventions:
* JavaScript numbers that the code keeps in 32-bit signed range are
  modelled as `Int` with explicit reduction modulo `2^32`.
* JavaScript strings fed to the rolling hash are modelled as lists of
  UTF-16 code units (`List Nat`).
* The browser's external collaborators (the `fetch` transport, the
  Web Crypto digest) are parameters of the embedded functions.
* Thrown JavaScript exceptions are modelled with `Except`.
-/

deriving instance DecidableEq for Except

namespace Voting

/-! ## ApiError and mapError (src/site/js/fingerprint.js, API layer) -/

/-- Embeds the `ApiError` class: `message`, HTTP `status`, and a string
error `code`. -/
structure ApiError where
  message : String
  status : Nat
  code : String
deriving Repr, DecidableEq

/-- JavaScript truthiness of `data?.message || 'An error occurred'`:
an absent or empty message falls back to the default text. -/
def messageOr (dataMsg : Option String) (dflt : String) : String :=
  match dataMsg with
  | some m => if m = "" then dflt else m
  | none => dflt

/-- Embeds `mapError(status, data)` from the API layer of
`src/site/js/fingerprint.js`. -/
def mapError (status : Nat) (dataMsg : Option String) : ApiError :=
  if status = 409 then ⟨"You have already voted", status, "ALREADY_VOTED"⟩
  else if status = 422 then ⟨"Invalid request data", status, "INVALID_DATA"⟩
  else if status = 429 then
    ⟨"Too many requests. Please try again later", status, "RATE_LIMIT"⟩
  else if status = 500 ∨ status = 502 ∨ status = 503 then
    ⟨"Server error. Please try again", status, "SERVER_ERROR"⟩
  else ⟨messageOr dataMsg "An error occurred", status, "UNKNOWN_ERROR"⟩

/-! ## fetchWithRetry (src/site/js/fingerprint.js, API layer)

The transport is a parameter: `server n` is the outcome of the `fetch`
call made with `retryCount = n` — `none` for a transport-level failure
(the promise rejects), `some s` for a response with HTTP status `s`.
The embedded function returns the final outcome (`.error ()` when the
last transport failure is re-thrown), the total number of `fetch`
attempts issued, and the list of backoff delays slept, in order. -/

/-- The `MAX_RETRIES` constant of the API layer. -/
def MAX_RETRIES : Nat := 3

/-- The `RETRY_DELAY` constant of the API layer (base delay in ms). -/
def RETRY_DELAY : Nat := 1000

/-- Embeds `response.ok`: HTTP status in `[200, 300)`. -/
def respOk (status : Nat) : Bool := 200 ≤ status ∧ status < 300

/-- Embeds `fetchWithRetry(url, options, retryCount)`:
returns `(outcome, attempts, delays)`. -/
def fetchWithRetry (server : Nat → Option Nat) (retryCount : Nat) :
    Except Unit Nat × Nat × List Nat :=
  match server retryCount with
  | some status =>
    -- Don't retry client errors (4xx except 429)
    if 400 ≤ status ∧ status < 500 ∧ status ≠ 429 then (.ok status, 1, [])
    -- Retry on server errors or rate limit
    else if ¬ respOk status ∧ retryCount < MAX_RETRIES then
      let d := RETRY_DELAY * 2 ^ retryCount
      let (r, a, ds) := fetchWithRetry server (retryCount + 1)
      (r, a + 1, d :: ds)
    else (.ok status, 1, [])
  | none =>
    -- Retry on network errors
    if retryCount < MAX_RETRIES then
      let d := RETRY_DELAY * 2 ^ retryCount
      let (r, a, ds) := fetchWithRetry server (retryCount + 1)
      (r, a + 1, d :: ds)
    else (.error (), 1, [])
termination_by MAX_RETRIES + 1 - retryCount
decreasing_by
  all_goals simp_all [MAX_RETRIES]
  all_goals omega

/-! ## Fallback hash and hex digest rendering
(src/site/js/fingerprint.js, fingerprint module) -/

/-- JavaScript `ToInt32`: reduce an integer modulo `2^32` into the
signed range `[-2^31, 2^31)`. -/
def toInt32 (n : Int) : Int :=
  if n % 4294967296 < 2147483648 then n % 4294967296
  else n % 4294967296 - 4294967296

/-- One iteration of the `fallbackHash` loop:
`hash = ((hash << 5) - hash) + char; hash = hash & hash`.
`hash << 5` coerces the product to int32, and the final `& hash`
coerces the exact double-precision sum back to int32. -/
def fallbackStep (h : Int) (c : Nat) : Int :=
  toInt32 (toInt32 (h * 32) - h + c)

/-- JavaScript digit characters for `Number.prototype.toString(36)`:
`0`-`9` then `a`-`z`. -/
def digitChar36 (d : Nat) : Char :=
  if d < 10 then Char.ofNat (48 + d) else Char.ofNat (87 + d)

/-- Digits of `n` in base `b`, most significant first, with structural
fuel (any `fuel ≥ n` is enough since `n / b < n` for `b ≥ 2`). -/
def toBaseAux (digit : Nat → Char) (b : Nat) : Nat → Nat → List Char
  | 0, n => [digit n]
  | fuel + 1, n =>
    if n < b then [digit n]
    else toBaseAux digit b fuel (n / b) ++ [digit (n % b)]

/-- Base-36 digits of `n`, most significant first, as produced by
`Number.prototype.toString(36)` on a nonnegative integer. -/
def toBase36 (n : Nat) : List Char :=
  toBaseAux digitChar36 36 n n

/-- Embeds `fallbackHash(str)`: fold the rolling-hash step over the
string's UTF-16 code units, then render `Math.abs(hash)` in base 36. -/
def fallbackHash (str : List Nat) : String :=
  ⟨toBase36 (str.foldl fallbackStep 0).natAbs⟩

/-- The recurrence as the spec words it:
`hash = hash*31 + charCode`, wrapped to signed 32-bit. -/
def specStep (h : Int) (c : Nat) : Int :=
  toInt32 (h * 31 + c)

/-- JavaScript digit characters for `Number.prototype.toString(16)`. -/
def digitChar16 (d : Nat) : Char :=
  if d < 10 then Char.ofNat (48 + d) else Char.ofNat (87 + d)

/-- Base-16 digits of `n`, most significant first. -/
def toBase16 (n : Nat) : List Char :=
  toBaseAux digitChar16 16 n n

/-- Embeds `b.toString(16).padStart(2, '0')` for one digest byte. -/
def byteToHex (b : Nat) : List Char :=
  if (toBase16 b).length < 2 then '0' :: toBase16 b else toBase16 b

/-- Embeds the hex rendering in `sha256Hash`:
`hashArray.map(b => b.toString(16).padStart(2, '0')).join('')`. -/
def hexEncode (bytes : List Nat) : String :=
  ⟨(bytes.map byteToHex).flatten⟩

/-- Embeds `sha256Hash(message)`: the Web Crypto digest is external, so
it is a parameter producing the digest bytes or failing; on failure the
code falls back to `fallbackHash(message)`. `codes` gives the UTF-16
code units of a string for the fallback path. -/
def sha256Hash (digest : String → Option (List Nat))
    (codes : String → List Nat) (message : String) : String :=
  match digest message with
  | some bytes => hexEncode bytes
  | none => fallbackHash (codes message)

/-! ## JSON serialization of signal objects

`generateHashedFingerprint` serializes the signals object with
`JSON.stringify(signals, Object.keys(signals).sort())`: an array
replacer, so properties are emitted in the replacer's (sorted) order.
`voting.js`'s `generateFingerprint` serializes with a bare
`JSON.stringify(components)`: properties are emitted in insertion
order.  A signals object is modelled as an association list of
(property name, value) pairs in insertion order. -/

/-- A JavaScript value stored in a signals object. `undef` is a
property whose value is `undefined` (dropped by `JSON.stringify`). -/
inductive JsValue where
  | str (s : String)
  | num (n : Int)
  | bool (b : Bool)
  | undef
deriving Repr, DecidableEq

/-- JSON escaping of one code point as in `QuoteJSONString`. -/
def escapeChar (c : Char) : List Char :=
  if c = '"' then ['\\', '"']
  else if c = '\\' then ['\\', '\\']
  else if c.toNat = 8 then ['\\', 'b']
  else if c.toNat = 9 then ['\\', 't']
  else if c.toNat = 10 then ['\\', 'n']
  else if c.toNat = 12 then ['\\', 'f']
  else if c.toNat = 13 then ['\\', 'r']
  else if c.toNat < 32 then
    '\\' :: 'u' :: '0' :: '0' :: byteToHex c.toNat
  else [c]

/-- JSON rendering of a string literal. -/
def quoteString (s : String) : String :=
  ⟨'"' :: (s.data.map escapeChar).flatten ++ ['"']⟩

/-- JSON rendering of a defined value. -/
def renderValue : JsValue → String
  | .str s => quoteString s
  | .num n => toString n
  | .bool b => if b then "true" else "false"
  | .undef => ""

/-- One serialized property, or `none` when the value is `undefined`. -/
def renderProp (k : String) (v : JsValue) : Option String :=
  match v with
  | .undef => none
  | v => some (quoteString k ++ ":" ++ renderValue v)

/-- Embeds `JSON.stringify(obj)`: properties in insertion order. -/
def jsStringify (pairs : List (String × JsValue)) : String :=
  "\x7b" ++ String.intercalate ","
    (pairs.filterMap fun p => renderProp p.1 p.2) ++ "\x7d"

/-- Lexicographic comparison of code-unit sequences, as the default
`Array.prototype.sort()` comparator does on strings. -/
def codesLe : List Nat → List Nat → Bool
  | [], _ => true
  | _ :: _, [] => false
  | a :: as, b :: bs =>
    if a < b then true else if b < a then false else codesLe as bs

/-- String order used by `Object.keys(signals).sort()`. -/
def strLe (a b : String) : Prop :=
  codesLe (a.data.map Char.toNat) (b.data.map Char.toNat) = true

instance : DecidableRel strLe := fun a b => by
  unfold strLe
  infer_instance

/-- Embeds `Array.prototype.sort()` on property names (lexicographic by
code units). -/
def sortKeys (keys : List String) : List String :=
  keys.insertionSort strLe

/-- Embeds `JSON.stringify(obj, keysArray)`: the replacer array determines the
property order; each listed key is looked up in the object. -/
def jsStringifyWithKeys (keys : List String)
    (pairs : List (String × JsValue)) : String :=
  "\x7b" ++ String.intercalate ","
    (keys.filterMap fun k => (pairs.lookup k).bind (renderProp k)) ++ "\x7d"

/-- The serialization performed by `generateHashedFingerprint`:
`JSON.stringify(signals, Object.keys(signals).sort())`. -/
def canonicalStringify (pairs : List (String × JsValue)) : String :=
  jsStringifyWithKeys (sortKeys (pairs.map Prod.fst)) pairs

/-- Core pipeline of `generateHashedFingerprint`
(src/site/js/fingerprint.js): sorted-key serialization, then the
digest (`sha256` is the external Web Crypto hash). -/
def fingerprintOfSignals (sha256 : String → String)
    (pairs : List (String × JsValue)) : String :=
  sha256 (canonicalStringify pairs)

/-- Embeds `generateFingerprint` from `src/site/js/voting.js`:
`JSON.stringify(components)` in insertion order, then the digest. -/
def generateFingerprint (sha256 : String → String)
    (components : List (String × JsValue)) : String :=
  sha256 (jsStringify components)

/-! ### Order properties of the key sort -/

theorem codesLe_total : ∀ x y : List Nat, codesLe x y ∨ codesLe y x
  | [], _ => Or.inl rfl
  | _ :: _, [] => Or.inr rfl
  | a :: as, b :: bs => by
    rcases Nat.lt_trichotomy a b with h | h | h
    · left; simp [codesLe, h]
    · subst h
      rcases codesLe_total as bs with ih | ih <;>
        simp [codesLe, ih]
    · right; simp [codesLe, h, Nat.not_lt_of_gt h]

theorem codesLe_trans : ∀ x y z : List Nat,
    codesLe x y → codesLe y z → codesLe x z
  | [], _, _, _, _ => rfl
  | _ :: _, [], _, h, _ => by simp [codesLe] at h
  | _ :: _, _ :: _, [], _, h => by simp [codesLe] at h
  | a :: as, b :: bs, c :: cs, h₁, h₂ => by
    rcases Nat.lt_trichotomy a b with hab | hab | hab <;>
      rcases Nat.lt_trichotomy b c with hbc | hbc | hbc
    · simp [codesLe, Nat.lt_trans hab hbc]
    · subst hbc; simp [codesLe, hab]
    · simp [codesLe, show ¬ b < c by omega, hbc] at h₂
    · subst hab; simp [codesLe, hbc]
    · subst hab; subst hbc
      simp only [codesLe, lt_self_iff_false, if_false] at h₁ h₂ ⊢
      exact codesLe_trans as bs cs h₁ h₂
    · subst hab; simp [codesLe, show ¬ a < c by omega, hbc] at h₂
    · simp [codesLe, show ¬ a < b by omega, hab] at h₁
    · simp [codesLe, show ¬ a < b by omega, hab] at h₁
    · simp [codesLe, show ¬ a < b by omega, hab] at h₁

theorem codesLe_antisymm : ∀ x y : List Nat,
    codesLe x y → codesLe y x → x = y
  | [], [], _, _ => rfl
  | [], _ :: _, _, h => by simp [codesLe] at h
  | _ :: _, [], h, _ => by simp [codesLe] at h
  | a :: as, b :: bs, h₁, h₂ => by
    rcases Nat.lt_trichotomy a b with hab | hab | hab
    · simp [codesLe, show ¬ b < a by omega, hab] at h₂
    · subst hab
      simp only [codesLe, lt_self_iff_false, if_false] at h₁ h₂
      rw [codesLe_antisymm as bs h₁ h₂]
    · simp [codesLe, show ¬ a < b by omega, hab] at h₁

instance : IsTotal String strLe :=
  ⟨fun _ _ => codesLe_total _ _⟩

instance : IsTrans String strLe :=
  ⟨fun _ _ _ h₁ h₂ => codesLe_trans _ _ _ h₁ h₂⟩

theorem char_toNat_injective : Function.Injective Char.toNat := by
  intro a b h
  apply Char.eq_of_val_eq
  apply UInt32.eq_of_toBitVec_eq
  apply BitVec.eq_of_toNat_eq
  simpa [Char.toNat, UInt32.toNat] using h

instance : IsAntisymm String strLe := by
  constructor
  intro a b h₁ h₂
  have h := codesLe_antisymm _ _ h₁ h₂
  have hd : a.data = b.data :=
    List.map_injective_iff.mpr char_toNat_injective h
  cases a; cases b
  exact congrArg String.mk hd

/-- Permutations with nodup first components have equal sorted key
lists. -/
theorem sortKeys_perm_eq {l₁ l₂ : List (String × JsValue)}
    (h : l₁.Perm l₂) :
    sortKeys (l₁.map Prod.fst) = sortKeys (l₂.map Prod.fst) := by
  apply List.eq_of_perm_of_sorted (r := strLe)
  · exact ((List.perm_insertionSort _ _).trans (h.map Prod.fst)).trans
      (List.perm_insertionSort _ _).symm
  · exact List.sorted_insertionSort _ _
  · exact List.sorted_insertionSort _ _

/-- Lookup is invariant under permutation when keys are
duplicate-free. -/
theorem lookup_perm_eq {l₁ l₂ : List (String × JsValue)}
    (h : l₁.Perm l₂) (hnd : (l₁.map Prod.fst).Nodup) (k : String) :
    l₁.lookup k = l₂.lookup k := by
  induction h with
  | nil => rfl
  | cons x _ ih =>
    obtain ⟨kx, vx⟩ := x
    simp only [List.map_cons, List.nodup_cons] at hnd
    simp only [List.lookup]
    cases hkx : (k == kx) <;> simp [ih hnd.2]
  | swap x y l =>
    obtain ⟨kx, vx⟩ := x
    obtain ⟨ky, vy⟩ := y
    simp only [List.map_cons, List.nodup_cons, List.mem_cons, not_or] at hnd
    have hxy : ky ≠ kx := hnd.1.1
    by_cases hky : k = ky <;> by_cases hkx : k = kx
    · subst hky; exact absurd hkx hxy
    · subst hky
      have hbx : (k == kx) = false := beq_eq_false_iff_ne.mpr hkx
      simp [List.lookup, hbx]
    · subst hkx
      have hby : (k == ky) = false := beq_eq_false_iff_ne.mpr hky
      simp [List.lookup, hby]
    · have hbx : (k == kx) = false := beq_eq_false_iff_ne.mpr hkx
      have hby : (k == ky) = false := beq_eq_false_iff_ne.mpr hky
      simp [List.lookup, hbx, hby]
  | trans h₁ h₂ ih₁ ih₂ =>
    have hnd' := (h₁.map (f := Prod.fst)).nodup_iff.mp hnd
    exact (ih₁ hnd).trans (ih₂ hnd')

/-- The canonical serialization depends only on the key/value pairs,
not on their presentation order. -/
theorem canonicalStringify_perm {l₁ l₂ : List (String × JsValue)}
    (h : l₁.Perm l₂) (hnd : (l₁.map Prod.fst).Nodup) :
    canonicalStringify l₁ = canonicalStringify l₂ := by
  unfold canonicalStringify jsStringifyWithKeys
  rw [sortKeys_perm_eq h]
  have hf : (fun k => (List.lookup k l₁).bind (renderProp k)) =
      (fun k => (List.lookup k l₂).bind (renderProp k)) := by
    funext k
    rw [lookup_perm_eq h hnd k]
  rw [hf]

/-! ## Signal collector (src/site/js/fingerprint.js, fingerprint module)

A browser probe is `Except Unit (Option V)`: `.error ()` models the
property access throwing, `.ok none` models it yielding `undefined`,
`.ok (some v)` a value.  `collectSignals` builds its object literal by
evaluating every probe expression in source order; only the canvas and
WebGL helpers wrap their probes in `try/catch`, so an exception from
any other probe propagates out of `collectSignals`. -/

/-- Outcome of reading one browser property. -/
abbrev Probe (V : Type) := Except Unit (Option V)

/-- The browser environment visible to `collectSignals`. -/
structure BrowserEnv where
  userAgent : Probe String
  language : Probe String
  languages : Probe (List String)
  platform : Probe String
  hardwareConcurrency : Probe Nat
  deviceMemory : Probe Nat
  maxTouchPoints : Probe Nat
  screenWidth : Probe Nat
  screenHeight : Probe Nat
  screenColorDepth : Probe Nat
  screenPixelDepth : Probe Nat
  availWidth : Probe Nat
  availHeight : Probe Nat
  -- `Intl.DateTimeFormat().resolvedOptions().timeZone` may throw
  timezone : Probe String
  -- `new Date().getTimezoneOffset()` has no `||` default
  timezoneOffset : Except Unit Int
  -- canvas probe outcome: `.ok none` = `getContext` returned null
  canvasProbe : Probe String
  cookieEnabled : Probe Bool
  doNotTrack : Probe String
  plugins : Probe (List String)
  -- WebGL probe outcome: `.ok none` = context or debug info missing
  webglProbe : Probe (String × String)

/-- The collected signals object (fixed property set, in the insertion
order of the source's object literal). -/
structure Signals where
  userAgent : String
  language : String
  languages : String
  platform : String
  hardwareConcurrency : Nat
  deviceMemory : Nat
  maxTouchPoints : Nat
  screenWidth : Nat
  screenHeight : Nat
  screenColorDepth : Nat
  screenPixelDepth : Nat
  availWidth : Nat
  availHeight : Nat
  timezone : String
  timezoneOffset : Int
  canvas : String
  cookieEnabled : Option Bool
  doNotTrack : String
  plugins : String
  webgl : String
deriving Repr, DecidableEq

/-- Embeds `expr || dflt` over a probe that is not wrapped in `try/catch`: an
exception propagates, `undefined` falls back to the default. -/
def probeOr {V : Type} (p : Probe V) (dflt : V) : Except Unit V :=
  match p with
  | .error e => .error e
  | .ok none => .ok dflt
  | .ok (some v) => .ok v

/-- Embeds `getCanvasFingerprint()`: `try/catch` maps a thrown probe to
`''`, a missing 2d context also yields `''`. -/
def getCanvasFingerprint (env : BrowserEnv) : String :=
  match env.canvasProbe with
  | .error _ => ""
  | .ok none => ""
  | .ok (some s) => s

/-- Embeds `getWebGLFingerprint()`: `try/catch` maps a thrown probe to
`''`; a missing context or debug extension yields `''`; otherwise
`` `${vendor}~${renderer}` ``. -/
def getWebGLFingerprint (env : BrowserEnv) : String :=
  match env.webglProbe with
  | .error _ => ""
  | .ok none => ""
  | .ok (some (vendor, renderer)) => vendor ++ "~" ++ renderer

/-- A list-valued probe joined with `','` — the shape of
`navigator.languages ? navigator.languages.join(',') : ''` and
`Array.from(navigator.plugins || []).map(p => p.name).join(',')`:
an exception propagates, an absent list yields `''`. -/
def joinOr (p : Probe (List String)) : Except Unit String :=
  match p with
  | .error e => .error e
  | .ok none => .ok ""
  | .ok (some ls) => .ok (String.intercalate "," ls)

/-- Embeds `collectSignals()`.  Each field is the corresponding
property initializer; probes outside the canvas/WebGL helpers are not
guarded, so their exceptions abort the whole collection. -/
def collectSignals (env : BrowserEnv) : Except Unit Signals := do
  let userAgent ← probeOr env.userAgent ""
  let language ← probeOr env.language ""
  let languages ← joinOr env.languages
  let platform ← probeOr env.platform ""
  let hardwareConcurrency ← probeOr env.hardwareConcurrency 0
  let deviceMemory ← probeOr env.deviceMemory 0
  let maxTouchPoints ← probeOr env.maxTouchPoints 0
  let screenWidth ← probeOr env.screenWidth 0
  let screenHeight ← probeOr env.screenHeight 0
  let screenColorDepth ← probeOr env.screenColorDepth 0
  let screenPixelDepth ← probeOr env.screenPixelDepth 0
  let availWidth ← probeOr env.availWidth 0
  let availHeight ← probeOr env.availHeight 0
  let timezone ← probeOr env.timezone ""
  let timezoneOffset ← env.timezoneOffset
  let canvas := getCanvasFingerprint env
  -- `cookieEnabled: navigator.cookieEnabled` (no `||` default)
  let cookieEnabled ← env.cookieEnabled
  let doNotTrack ← probeOr env.doNotTrack ""
  let plugins ← joinOr env.plugins
  let webgl := getWebGLFingerprint env
  return { userAgent, language, languages, platform,
           hardwareConcurrency, deviceMemory, maxTouchPoints,
           screenWidth, screenHeight, screenColorDepth,
           screenPixelDepth, availWidth, availHeight, timezone,
           timezoneOffset, canvas, cookieEnabled, doNotTrack,
           plugins, webgl }

/-- The signals object as the ordered key/value pairs fed to
`JSON.stringify` (insertion order of the object literal; an
`undefined` value is kept as a property and later dropped by the
serializer). -/
def signalsToPairs (s : Signals) : List (String × JsValue) :=
  [("userAgent", .str s.userAgent),
   ("language", .str s.language),
   ("languages", .str s.languages),
   ("platform", .str s.platform),
   ("hardwareConcurrency", .num s.hardwareConcurrency),
   ("deviceMemory", .num s.deviceMemory),
   ("maxTouchPoints", .num s.maxTouchPoints),
   ("screenWidth", .num s.screenWidth),
   ("screenHeight", .num s.screenHeight),
   ("screenColorDepth", .num s.screenColorDepth),
   ("screenPixelDepth", .num s.screenPixelDepth),
   ("availWidth", .num s.availWidth),
   ("availHeight", .num s.availHeight),
   ("timezone", .str s.timezone),
   ("timezoneOffset", .num s.timezoneOffset),
   ("canvas", .str s.canvas),
   ("cookieEnabled", match s.cookieEnabled with
     | some b => .bool b
     | none => .undef),
   ("doNotTrack", .str s.doNotTrack),
   ("plugins", .str s.plugins),
   ("webgl", .str s.webgl)]

/-- The fixed key set of the signals object. -/
def signalKeys : List String :=
  ["userAgent", "language", "languages", "platform",
   "hardwareConcurrency", "deviceMemory", "maxTouchPoints",
   "screenWidth", "screenHeight", "screenColorDepth",
   "screenPixelDepth", "availWidth", "availHeight", "timezone",
   "timezoneOffset", "canvas", "cookieEnabled", "doNotTrack",
   "plugins", "webgl"]

/-- The minimal signals object built by `generateHashedFingerprint`'s
`catch` branch (its probes are the same environment reads). -/
def minimalSignalsPairs (env : BrowserEnv) :
    Except Unit (List (String × JsValue)) := do
  let userAgent ← probeOr env.userAgent ""
  let language ← probeOr env.language ""
  let platform ← probeOr env.platform ""
  let screenWidth ← probeOr env.screenWidth 0
  let screenHeight ← probeOr env.screenHeight 0
  let timezone ← env.timezoneOffset
  return [("userAgent", .str userAgent),
          ("language", .str language),
          ("platform", .str platform),
          ("screenWidth", .num screenWidth),
          ("screenHeight", .num screenHeight),
          ("timezone", .num timezone)]

/-- UTF-16 code units of a string (code points below `0x10000` are one
unit; the fingerprint strings are ASCII JSON). -/
def strCodes (s : String) : List Nat :=
  s.data.map Char.toNat

/-- Embeds `generateHashedFingerprint()`: collect, serialize with
sorted keys, digest; on a collection failure, serialize the minimal
signals in insertion order and apply `fallbackHash`.  (If the minimal
probes also throw, the rejection propagates: the outer function has no
further handler.) -/
def generateHashedFingerprint (sha256 : String → String)
    (env : BrowserEnv) : Except Unit String :=
  match collectSignals env with
  | .ok signals =>
    .ok (fingerprintOfSignals sha256 (signalsToPairs signals))
  | .error _ =>
    match minimalSignalsPairs env with
    | .ok pairs => .ok (fallbackHash (strCodes (jsStringify pairs)))
    | .error e => .error e

/-! ## Store-backed operations
(src/site/js/fingerprint.js, API layer, `MOCK_MODE = false` path)

Each operation is a finite interaction with the remote store: a
sequence of `fetchWithRetry` calls, each resolving to a response or to
a transport failure after retries (`Except Unit HttpResp`).  The
operations are written once as interaction trees (`Prog`) translated
from the source, then interpreted either against an arbitrary response
oracle (covering races and failures) or against a deterministic store
state. -/

/-- A voter row. -/
structure Voter where
  id : Nat
  fingerprint : String
deriving Repr, DecidableEq

/-- A candidate row. -/
structure Candidate where
  id : Nat
  name : String
  description : String
  image_url : String
deriving Repr, DecidableEq

/-- A vote row. -/
structure Vote where
  id : Nat
  voter_id : Nat
  candidate_id : Nat
deriving Repr, DecidableEq

/-- The REST requests issued by the API layer. -/
inductive StoreReq where
  | getVoters (fingerprint : String)
  | postVoter (fingerprint : String)
  | getCandidates
  | postVote (voterId : Nat) (candidateId : Nat)
deriving Repr, DecidableEq

/-- A JSON response body, as the shapes the code reads off it. -/
inductive Body where
  | voters (l : List Voter)
  | votes (l : List Vote)
  | candidates (l : List Candidate)
  | obj (message : Option String)
deriving Repr, DecidableEq

/-- An HTTP response. -/
structure HttpResp where
  status : Nat
  body : Body
deriving Repr, DecidableEq

/-- Embeds `await response.json()` read as a voters array (`voters.length`,
`voters[0]`): a non-array body behaves as an empty one. -/
def asVoters : Body → List Voter
  | .voters l => l
  | _ => []

/-- Embeds `await response.json()` read as a votes array. -/
def asVotes : Body → List Vote
  | .votes l => l
  | _ => []

/-- Embeds `await response.json()` read as a candidates array. -/
def asCandidates : Body → List Candidate
  | .candidates l => l
  | _ => []

/-- Embeds `data?.message` for the error path. -/
def bodyMsg : Body → Option String
  | .obj m => m
  | _ => none

/-- Interaction tree of an operation: issue a request, continue with
the resolved outcome of its `fetchWithRetry` call. -/
inductive Prog (α : Type) where
  | pure (a : α)
  | req (r : StoreReq) (k : Except Unit HttpResp → Prog α)

/-- The `ApiError` thrown by `ensureVoter`'s outer catch for
non-`ApiError` failures. -/
def registerNetworkError : ApiError :=
  ⟨"Failed to register voter", 0, "NETWORK_ERROR"⟩

/-- Embeds `ensureVoter(fingerprint)` (store-backed path): read the
voter filtered by fingerprint; if the read succeeded and returned a
row, return `voters[0]`; otherwise insert and return the inserted row,
throwing the mapped error when the insert response is not ok, and
`NETWORK_ERROR` when a transport failure escapes `fetchWithRetry`. -/
def ensureVoterProg (fingerprint : String) :
    Prog (Except ApiError (Option Voter)) :=
  .req (.getVoters fingerprint) fun
    | .error _ => .pure (.error registerNetworkError)
    | .ok getResponse =>
      -- If not found, create new voter
      let create : Prog (Except ApiError (Option Voter)) :=
        .req (.postVoter fingerprint) fun
          | .error _ => .pure (.error registerNetworkError)
          | .ok createResponse =>
            if respOk createResponse.status then
              .pure (.ok (asVoters createResponse.body).head?)
            else
              .pure (.error (mapError createResponse.status
                (bodyMsg createResponse.body)))
      if respOk getResponse.status then
        match asVoters getResponse.body with
        | v :: _ => .pure (.ok (some v))
        | [] => create
      else create

/-- Embeds `submitVote(voterId, candidateId)` (store-backed path):
a single insert; a non-ok response throws the mapped error. -/
def submitVoteProg (voterId candidateId : Nat) :
    Prog (Except ApiError (Option Vote)) :=
  .req (.postVote voterId candidateId) fun
    | .error _ => .pure (.error ⟨"Failed to submit vote", 0, "NETWORK_ERROR"⟩)
    | .ok response =>
      if respOk response.status then
        .pure (.ok (asVotes response.body).head?)
      else
        .pure (.error (mapError response.status (bodyMsg response.body)))

/-- Embeds `fetchCandidates()` (store-backed path). -/
def fetchCandidatesProg : Prog (Except ApiError (List Candidate)) :=
  .req .getCandidates fun
    | .error _ => .pure (.error ⟨"Failed to fetch candidates", 0, "NETWORK_ERROR"⟩)
    | .ok response =>
      if respOk response.status then
        .pure (.ok (asCandidates response.body))
      else
        .pure (.error (mapError response.status (bodyMsg response.body)))

/-- Run an operation against an arbitrary response oracle: `oracle n`
resolves the `n`-th request of the session.  Returns the outcome and
the requests issued. -/
def runWith (oracle : Nat → Except Unit HttpResp) :
    Prog α → Nat → α × List StoreReq
  | .pure a, _ => (a, [])
  | .req r k, n =>
    let q := runWith oracle (k (oracle n)) (n + 1)
    (q.1, r :: q.2)

/-- State of the remote store. -/
structure DB where
  voters : List Voter
  votes : List Vote
  candidates : List Candidate
  nextVoterId : Nat
  nextVoteId : Nat
deriving Repr, DecidableEq

/-- Modelled from the spec: the persistence layer itself (the hosted
BaaS) is not part of the repository; this is its behavior as the spec
describes it — reads return the matching rows; an insert that violates
the uniqueness constraint (at most one Voter per fingerprint, at most
one Vote per voter) is rejected with HTTP 409; a successful insert
returns the inserted row (`Prefer: return=representation`). -/
def storeHandle (db : DB) : StoreReq → HttpResp × DB
  | .getVoters fp =>
    (⟨200, .voters (db.voters.filter (fun v => v.fingerprint == fp))⟩, db)
  | .postVoter fp =>
    if db.voters.any (fun v => v.fingerprint == fp) then
      (⟨409, .obj (some "duplicate key value violates unique constraint")⟩,
        db)
    else
      let v : Voter := ⟨db.nextVoterId, fp⟩
      (⟨201, .voters [v]⟩,
        { db with voters := db.voters ++ [v],
                  nextVoterId := db.nextVoterId + 1 })
  | .getCandidates => (⟨200, .candidates db.candidates⟩, db)
  | .postVote voterId candidateId =>
    if db.votes.any (fun v => v.voter_id == voterId) then
      (⟨409, .obj (some "duplicate key value violates unique constraint")⟩,
        db)
    else
      let v : Vote := ⟨db.nextVoteId, voterId, candidateId⟩
      (⟨201, .votes [v]⟩,
        { db with votes := db.votes ++ [v],
                  nextVoteId := db.nextVoteId + 1 })

/-- Run an operation against the deterministic store: every request is
answered from the store state (no transport failures, no races).
Returns the outcome, the final store state, and the requests issued. -/
def runDB : Prog α → DB → α × DB × List StoreReq
  | .pure a, db => (a, db, [])
  | .req r k, db =>
    let p := storeHandle db r
    let q := runDB (k (.ok p.1)) p.2
    (q.1, q.2.1, r :: q.2.2)

/-! ## Admin election management (src/admin/js/api.js) -/

/-- An election row. -/
structure ElectionRow where
  id : Nat
  title : String
  description : Option String
  is_open : Bool
deriving Repr, DecidableEq

/-- Admin-side store state. -/
structure AdminDB where
  elections : List ElectionRow
  nextElectionId : Nat
deriving Repr, DecidableEq

/-- The payload handed to `createElection` — an arbitrary object, so it
may also carry an `is_open` field. -/
structure ElectionData where
  title : String
  description : Option String
  is_open : Option Bool
deriving Repr, DecidableEq

/-- Embeds `electionData.description || null`: absent or empty becomes null. -/
def descriptionOrNull (d : Option String) : Option String :=
  match d with
  | some s => if s = "" then none else some s
  | none => none

/-- Embeds `createElection(electionData)` from `src/admin/js/api.js`:
inserts `{ title, description || null, is_open: false }` — any
`is_open` in the payload is not forwarded.  The store accepting the
insert and returning the row is modelled from the spec (the BaaS is
external). -/
def createElection (db : AdminDB) (d : ElectionData) :
    (Except String ElectionRow) × AdminDB :=
  let row : ElectionRow :=
    ⟨db.nextElectionId, d.title, descriptionOrNull d.description, false⟩
  (.ok row,
    { db with elections := db.elections ++ [row],
              nextElectionId := db.nextElectionId + 1 })

/-- Embeds `toggleElectionStatus(electionId, isOpen)`: update
`is_open` of the matching rows. -/
def toggleElectionStatus (db : AdminDB) (electionId : Nat)
    (isOpen : Bool) : AdminDB :=
  { db with
    elections := db.elections.map fun e =>
      if e.id = electionId then { e with is_open := isOpen } else e }

/-- Embeds the `is_open`-filtered read used by `isVotingOpen` /
`getCurrentElection` (voting accepts votes only when an election with
`is_open = true` exists). -/
def isVotingOpen (db : AdminDB) : Bool :=
  db.elections.any (fun e => e.is_open)

/-! ## Claim theorems -/

/-- C5: against a server that always answers 503 (or always fails at
transport level), `fetchWithRetry` issues exactly `MAX_RETRIES + 1 = 4`
attempts with delays `RETRY_DELAY * 2^attempt` before each retry, then
propagates the final failure; a 422 answer (or any status in
`[400,500)` other than 429) on the first attempt yields exactly one
attempt, returned without retry. -/
theorem fetchWithRetry_policy :
    (∀ server : Nat → Option Nat, (∀ n, server n = some 503) →
      fetchWithRetry server 0 =
        (.ok 503, MAX_RETRIES + 1,
          [RETRY_DELAY * 2 ^ 0, RETRY_DELAY * 2 ^ 1, RETRY_DELAY * 2 ^ 2])) ∧
    (∀ server : Nat → Option Nat, (∀ n, server n = none) →
      fetchWithRetry server 0 =
        (.error (), MAX_RETRIES + 1,
          [RETRY_DELAY * 2 ^ 0, RETRY_DELAY * 2 ^ 1, RETRY_DELAY * 2 ^ 2])) ∧
    (∀ (server : Nat → Option Nat) (status : Nat), server 0 = some status →
      400 ≤ status → status < 500 → status ≠ 429 →
      fetchWithRetry server 0 = (.ok status, 1, [])) := by
  refine ⟨?_, ?_, ?_⟩
  · intro server h
    simp [fetchWithRetry, h 0, h 1, h 2, h 3, respOk, MAX_RETRIES,
      RETRY_DELAY]
  · intro server h
    simp [fetchWithRetry, h 0, h 1, h 2, h 3, MAX_RETRIES, RETRY_DELAY]
  · intro server status h h4 h5 h429
    rw [fetchWithRetry, h]
    simp [h4, h5, h429]

/-- C5 witness: concrete servers exercising all three parts. -/
theorem fetchWithRetry_policy_witness :
    fetchWithRetry (fun _ => some 503) 0 =
      (.ok 503, 4, [1000, 2000, 4000]) ∧
    fetchWithRetry (fun _ => none) 0 =
      (.error (), 4, [1000, 2000, 4000]) ∧
    fetchWithRetry (fun _ => some 422) 0 = (.ok 422, 1, []) :=
  ⟨fetchWithRetry_policy.1 (fun _ => some 503) (fun _ => rfl),
   fetchWithRetry_policy.2.1 (fun _ => none) (fun _ => rfl),
   fetchWithRetry_policy.2.2 (fun _ => some 422) 422 rfl (by omega)
     (by omega) (by omega)⟩

/-- C6: the error mapper sends 409, 422, 429, 500, 503 and 404 to
ALREADY_VOTED, INVALID_DATA, RATE_LIMIT, SERVER_ERROR, SERVER_ERROR and
UNKNOWN_ERROR respectively; 502 also maps to SERVER_ERROR, and every
other status maps to UNKNOWN_ERROR carrying the store's message when a
(nonempty) message is present. -/
theorem mapError_status_mapping :
    (∀ d, (mapError 409 d).code = "ALREADY_VOTED") ∧
    (∀ d, (mapError 422 d).code = "INVALID_DATA") ∧
    (∀ d, (mapError 429 d).code = "RATE_LIMIT") ∧
    (∀ d, (mapError 500 d).code = "SERVER_ERROR") ∧
    (∀ d, (mapError 502 d).code = "SERVER_ERROR") ∧
    (∀ d, (mapError 503 d).code = "SERVER_ERROR") ∧
    (∀ d, (mapError 404 d).code = "UNKNOWN_ERROR") ∧
    (∀ s d, s ∉ ([409, 422, 429, 500, 502, 503] : List Nat) →
      (mapError s d).code = "UNKNOWN_ERROR") ∧
    (∀ s m, s ∉ ([409, 422, 429, 500, 502, 503] : List Nat) → m ≠ "" →
      (mapError s (some m)).message = m) := by
  refine ⟨fun d => rfl, fun d => rfl, fun d => rfl, fun d => rfl,
    fun d => rfl, fun d => rfl, fun d => rfl, ?_, ?_⟩
  · intro s d hs
    simp only [List.mem_cons, List.not_mem_nil, or_false, not_or] at hs
    simp [mapError, hs.1, hs.2.1, hs.2.2.1, hs.2.2.2.1, hs.2.2.2.2.1,
      hs.2.2.2.2.2]
  · intro s m hs hm
    simp only [List.mem_cons, List.not_mem_nil, or_false, not_or] at hs
    simp [mapError, messageOr, hs.1, hs.2.1, hs.2.2.1, hs.2.2.2.1,
      hs.2.2.2.2.1, hs.2.2.2.2.2, hm]

/-- C6 witness: the mapper evaluated at status 404 with a message. -/
theorem mapError_status_mapping_witness :
    (mapError 404 (some "gone")).code = "UNKNOWN_ERROR" ∧
    (mapError 404 (some "gone")).message = "gone" :=
  ⟨mapError_status_mapping.2.2.2.2.2.2.2.1 404 (some "gone") (by decide),
   mapError_status_mapping.2.2.2.2.2.2.2.2 404 "gone" (by decide)
     (by decide)⟩

/-- C10: `createElection` inserts the new election with
`is_open = false` regardless of the payload (an `is_open` field in the
payload is ignored), so creating an election never makes voting open;
only an explicit `toggleElectionStatus` call can open it. -/
theorem createElection_inserts_closed (db : AdminDB) (d : ElectionData) :
    ∃ row : ElectionRow,
      (createElection db d).1 = .ok row ∧
      row.is_open = false ∧
      (createElection db d).2.elections = db.elections ++ [row] ∧
      isVotingOpen (createElection db d).2 = isVotingOpen db ∧
      createElection db d = createElection db ⟨d.title, d.description, none⟩ ∧
      (toggleElectionStatus (createElection db d).2 row.id true).elections.getLast?
        = some { row with is_open := true } := by
  refine ⟨_, rfl, rfl, rfl, ?_, rfl, ?_⟩
  · simp [isVotingOpen, createElection]
  · simp [toggleElectionStatus, createElection, List.getLast?_append]

/-- C4 (amended): for `generateHashedFingerprint` the property holds —
its serialization sorts keys, so for any digest function, hashing the
same key/value pairs presented in any collection order yields the same
Fingerprint (and hashing the same Signal Set twice trivially agrees).
`voting.js`'s `generateFingerprint` is excluded: it serializes in
presentation order (see the counterexample). -/
theorem fingerprintOfSignals_canonical (sha256 : String → String)
    (l₁ l₂ : List (String × JsValue))
    (hnd : (l₁.map Prod.fst).Nodup) (hp : l₁.Perm l₂) :
    fingerprintOfSignals sha256 l₁ = fingerprintOfSignals sha256 l₂ := by
  unfold fingerprintOfSignals
  rw [canonicalStringify_perm hp hnd]

/-- C4 witness: the canonical fingerprint agrees on two presentation
orders of the same pairs. -/
theorem fingerprintOfSignals_canonical_witness :
    fingerprintOfSignals id [("b", .str "x"), ("a", .num 1)] =
      fingerprintOfSignals id [("a", .num 1), ("b", .str "x")] :=
  fingerprintOfSignals_canonical id _ _ (by decide)
    (List.Perm.swap _ _ _)

/-- C4 counterexample: `generateFingerprint` from `voting.js` hashes
the insertion-order serialization, so reordering the same key/value
pairs changes the string fed to the digest, and the claim's stated
mechanism (sorted-key canonicalization before the digest) does not
hold for it. -/
theorem generateFingerprint_order_dependent :
    ([("b", JsValue.str "x"), ("a", JsValue.num 1)] :
        List (String × JsValue)).Perm
      [("a", JsValue.num 1), ("b", JsValue.str "x")] ∧
    (([("b", JsValue.str "x"), ("a", JsValue.num 1)] :
        List (String × JsValue)).map Prod.fst).Nodup ∧
    jsStringify [("b", JsValue.str "x"), ("a", JsValue.num 1)] ≠
      jsStringify [("a", JsValue.num 1), ("b", JsValue.str "x")] ∧
    generateFingerprint id [("b", JsValue.str "x"), ("a", JsValue.num 1)] ≠
      generateFingerprint id [("a", JsValue.num 1), ("b", JsValue.str "x")] := by
  refine ⟨List.Perm.swap _ _ _, by decide, by decide, by decide⟩

/-! ### Arithmetic of the fallback hash -/

theorem toInt32_emod (z : Int) :
    toInt32 z % 4294967296 = z % 4294967296 := by
  unfold toInt32
  split_ifs <;> omega

theorem toInt32_congr {x y : Int}
    (h : x % 4294967296 = y % 4294967296) : toInt32 x = toInt32 y := by
  simp only [toInt32, h]

theorem fallbackStep_eq_specStep (h : Int) (c : Nat) :
    fallbackStep h c = specStep h c := by
  unfold fallbackStep specStep
  apply toInt32_congr
  have h1 := toInt32_emod (h * 32)
  omega

theorem toInt32_bounds (z : Int) :
    -2147483648 ≤ toInt32 z ∧ toInt32 z < 2147483648 := by
  unfold toInt32
  split_ifs <;> constructor <;> omega

theorem foldl_specStep_bounds : ∀ (l : List Nat) (h : Int),
    -2147483648 ≤ h → h < 2147483648 →
    -2147483648 ≤ l.foldl specStep h ∧
      l.foldl specStep h < 2147483648
  | [], _, h1, h2 => ⟨h1, h2⟩
  | c :: cs, h, _, _ => by
    simp only [List.foldl_cons]
    exact foldl_specStep_bounds cs _ (toInt32_bounds (h * 31 + c)).1
      (toInt32_bounds (h * 31 + c)).2

theorem toBaseAux_length_le (digit : Nat → Char) (b : Nat) (hb : 2 ≤ b) :
    ∀ (fuel n k : Nat), 1 ≤ k → n < b ^ k →
      (toBaseAux digit b fuel n).length ≤ k
  | 0, n, k, hk, _ => by
    simp only [toBaseAux, List.length_singleton]
    omega
  | fuel + 1, n, k, hk, hn => by
    by_cases h : n < b
    · simp only [toBaseAux, if_pos h, List.length_singleton]
      omega
    · have hk2 : 2 ≤ k := by
        rcases k with _ | _ | k
        · omega
        · simp only [pow_succ, pow_zero, one_mul] at hn; omega
        · omega
      have hpow : b ^ k = b * b ^ (k - 1) := by
        rw [← pow_succ']
        congr 1
        omega
      have hdiv : n / b < b ^ (k - 1) :=
        Nat.div_lt_of_lt_mul (hpow ▸ hn)
      have ih := toBaseAux_length_le digit b hb fuel (n / b) (k - 1)
        (by omega) hdiv
      simp only [toBaseAux, if_neg h, List.length_append,
        List.length_singleton]
      omega

theorem toBaseAux_length_pos (digit : Nat → Char) (b fuel n : Nat) :
    1 ≤ (toBaseAux digit b fuel n).length := by
  cases fuel with
  | zero => simp [toBaseAux]
  | succ fuel =>
    simp only [toBaseAux]
    split <;> simp

theorem byteToHex_length {b : Nat} (hb : b < 256) :
    (byteToHex b).length = 2 := by
  have h1 := toBaseAux_length_pos digitChar16 16 b b
  have h2 := toBaseAux_length_le digitChar16 16 (by omega) b b 2
    (by omega) (by omega)
  unfold byteToHex toBase16 at *
  split_ifs with h
  · simp only [List.length_cons]
    omega
  · omega

theorem hexEncode_length : ∀ bytes : List Nat,
    (∀ x ∈ bytes, x < 256) →
    (hexEncode bytes).length = 2 * bytes.length
  | [], _ => rfl
  | b :: bs, h => by
    have hb := h b (List.mem_cons_self _ _)
    have ih := hexEncode_length bs fun x hx => h x (List.mem_cons_of_mem _ hx)
    simp only [hexEncode, String.length, List.map_cons, List.flatten_cons,
      List.length_append, List.length_cons] at ih ⊢
    rw [byteToHex_length hb]
    omega

/-- C7: the fallback hash equals the base-36 rendering of the absolute
value of the spec's rolling hash `h := toInt32 (h*31 + charCode)`
(the code's `((h << 5) - h) + char` with `& h` wrapping agrees with it);
its output has at most 6 characters, while the cryptographic path's
hex rendering of a 32-byte digest has exactly 64, so the two forms are
always distinct; when the digest is unavailable `sha256Hash` uses the
fallback, otherwise the hex rendering.  (Stability across repeated
calls is purity of the embedded function.) -/
theorem fallbackHash_rolling_spec :
    (∀ str : List Nat,
      fallbackHash str = ⟨toBase36 (str.foldl specStep 0).natAbs⟩ ∧
      (fallbackHash str).length ≤ 6) ∧
    (∀ bytes str : List Nat, bytes.length = 32 →
      (∀ x ∈ bytes, x < 256) →
      (hexEncode bytes).length = 64 ∧ hexEncode bytes ≠ fallbackHash str) ∧
    (∀ (digest : String → Option (List Nat)) (codes : String → List Nat)
        (msg : String),
      (digest msg = none →
        sha256Hash digest codes msg = fallbackHash (codes msg)) ∧
      (∀ bytes, digest msg = some bytes →
        sha256Hash digest codes msg = hexEncode bytes)) := by
  have hstep : fallbackStep = specStep :=
    funext fun h => funext fun c => fallbackStep_eq_specStep h c
  have hlen : ∀ str : List Nat, (fallbackHash str).length ≤ 6 := by
    intro str
    have hb := foldl_specStep_bounds str 0 (by omega) (by omega)
    have habs : (str.foldl specStep 0).natAbs < 2176782336 := by omega
    have h6 := toBaseAux_length_le digitChar36 36 (by omega)
      (str.foldl specStep 0).natAbs (str.foldl specStep 0).natAbs 6
      (by omega) (by norm_num at habs ⊢; omega)
    simp only [fallbackHash, hstep, String.length, toBase36]
    exact h6
  refine ⟨fun str => ⟨by simp only [fallbackHash, hstep], hlen str⟩,
    fun bytes str h32 h256 => ?_, fun digest codes msg => ⟨?_, ?_⟩⟩
  · have he := hexEncode_length bytes h256
    rw [h32] at he
    refine ⟨he, fun hcontra => ?_⟩
    have := hlen str
    rw [← hcontra, he] at this
    omega
  · intro h
    simp [sha256Hash, h]
  · intro bytes h
    simp [sha256Hash, h]

/-- C7 witness: the fallback hash of "abc" (code units 97 98 99), and
the hex rendering of a concrete 32-byte digest. -/
theorem fallbackHash_rolling_spec_witness :
    fallbackHash [97, 98, 99] =
      ⟨toBase36 (([97, 98, 99] : List Nat).foldl specStep 0).natAbs⟩ ∧
    (fallbackHash [97, 98, 99]).length ≤ 6 ∧
    (hexEncode (List.replicate 32 0)).length = 64 ∧
    hexEncode (List.replicate 32 0) ≠ fallbackHash [97, 98, 99] := by
  have h1 := (fallbackHash_rolling_spec.1 [97, 98, 99])
  have h2 := fallbackHash_rolling_spec.2.1 (List.replicate 32 0)
    [97, 98, 99] (by decide) (by decide)
  exact ⟨h1.1, h1.2, h2.1, h2.2⟩

/-! ### Signal collector lemmas (C8) -/

theorem probeOr_ok {V : Type} (o : Option V) (dflt : V) :
    probeOr (.ok o) dflt = .ok (o.getD dflt) := by
  cases o <;> rfl

theorem joinOr_ok (o : Option (List String)) :
    joinOr (.ok o) = .ok ((o.map (String.intercalate ",")).getD "") := by
  cases o <;> rfl

theorem except_bind_ok {ε α β : Type} (a : α) (f : α → Except ε β) :
    (Bind.bind (Except.ok a) f : Except ε β) = f a := rfl

/-- The unguarded probes (everything outside the canvas and WebGL
helpers) resolve without throwing. -/
def unguardedProbesOk (env : BrowserEnv) : Prop :=
  (∃ v, env.userAgent = .ok v) ∧ (∃ v, env.language = .ok v) ∧
  (∃ v, env.languages = .ok v) ∧ (∃ v, env.platform = .ok v) ∧
  (∃ v, env.hardwareConcurrency = .ok v) ∧
  (∃ v, env.deviceMemory = .ok v) ∧ (∃ v, env.maxTouchPoints = .ok v) ∧
  (∃ v, env.screenWidth = .ok v) ∧ (∃ v, env.screenHeight = .ok v) ∧
  (∃ v, env.screenColorDepth = .ok v) ∧
  (∃ v, env.screenPixelDepth = .ok v) ∧ (∃ v, env.availWidth = .ok v) ∧
  (∃ v, env.availHeight = .ok v) ∧ (∃ v, env.timezone = .ok v) ∧
  (∃ v, env.timezoneOffset = .ok v) ∧ (∃ v, env.cookieEnabled = .ok v) ∧
  (∃ v, env.doNotTrack = .ok v) ∧ (∃ v, env.plugins = .ok v)

/-- C8 (amended): when the probes outside the two guarded helpers do
not throw, `collectSignals` succeeds with the full fixed key set, the
canvas/WebGL helpers map their own probing failures to `''`, and
absent signals are recorded as empty/zero sentinels.  (A thrown
unguarded probe, e.g. the timezone read, aborts the collection — see
the counterexample.) -/
theorem collectSignals_guarded (env : BrowserEnv)
    (h : unguardedProbesOk env) :
    ∃ s : Signals,
      collectSignals env = .ok s ∧
      (signalsToPairs s).map Prod.fst = signalKeys ∧
      (env.canvasProbe = .error () → s.canvas = "") ∧
      (env.webglProbe = .error () → s.webgl = "") ∧
      (env.userAgent = .ok none → s.userAgent = "") ∧
      (env.languages = .ok none → s.languages = "") ∧
      (env.hardwareConcurrency = .ok none → s.hardwareConcurrency = 0) ∧
      (env.deviceMemory = .ok none → s.deviceMemory = 0) ∧
      (env.screenWidth = .ok none → s.screenWidth = 0) ∧
      (env.timezone = .ok none → s.timezone = "") ∧
      (env.doNotTrack = .ok none → s.doNotTrack = "") ∧
      (env.plugins = .ok none → s.plugins = "") := by
  obtain ⟨⟨ua, hua⟩, ⟨la, hla⟩, ⟨ls, hls⟩, ⟨pf, hpf⟩, ⟨hc, hhc⟩,
    ⟨dm, hdm⟩, ⟨mt, hmt⟩, ⟨sw, hsw⟩, ⟨sh, hsh⟩, ⟨cd, hcd⟩, ⟨pd, hpd⟩,
    ⟨aw, haw⟩, ⟨ah, hah⟩, ⟨tz, htz⟩, ⟨toff, htoff⟩, ⟨ce, hce⟩,
    ⟨dt, hdt⟩, ⟨pl, hpl⟩⟩ := h
  have hcoll : collectSignals env = .ok
      { userAgent := ua.getD "", language := la.getD "",
        languages := (ls.map (String.intercalate ",")).getD "",
        platform := pf.getD "", hardwareConcurrency := hc.getD 0,
        deviceMemory := dm.getD 0, maxTouchPoints := mt.getD 0,
        screenWidth := sw.getD 0, screenHeight := sh.getD 0,
        screenColorDepth := cd.getD 0, screenPixelDepth := pd.getD 0,
        availWidth := aw.getD 0, availHeight := ah.getD 0,
        timezone := tz.getD "", timezoneOffset := toff,
        canvas := getCanvasFingerprint env, cookieEnabled := ce,
        doNotTrack := dt.getD "",
        plugins := (pl.map (String.intercalate ",")).getD "",
        webgl := getWebGLFingerprint env } := by
    simp only [collectSignals, hua, hla, hls, hpf, hhc, hdm, hmt, hsw,
      hsh, hcd, hpd, haw, hah, htz, htoff, hce, hdt, hpl, probeOr_ok,
      joinOr_ok, except_bind_ok]
    rfl
  refine ⟨_, hcoll, rfl, ?_, ?_, ?_, ?_, ?_, ?_, ?_, ?_, ?_, ?_⟩
  · intro hcv
    simp [getCanvasFingerprint, hcv]
  · intro hwg
    simp [getWebGLFingerprint, hwg]
  · intro hh
    rw [hua] at hh
    injection hh with hh
    subst hh
    rfl
  · intro hh
    rw [hls] at hh
    injection hh with hh
    subst hh
    rfl
  · intro hh
    rw [hhc] at hh
    injection hh with hh
    subst hh
    rfl
  · intro hh
    rw [hdm] at hh
    injection hh with hh
    subst hh
    rfl
  · intro hh
    rw [hsw] at hh
    injection hh with hh
    subst hh
    rfl
  · intro hh
    rw [htz] at hh
    injection hh with hh
    subst hh
    rfl
  · intro hh
    rw [hdt] at hh
    injection hh with hh
    subst hh
    rfl
  · intro hh
    rw [hpl] at hh
    injection hh with hh
    subst hh
    rfl

/-- Environment whose probes are all benign and absent: every
unguarded probe yields `undefined`, the guarded probes fail. -/
def allAbsentEnv : BrowserEnv :=
  { userAgent := .ok none, language := .ok none, languages := .ok none,
    platform := .ok none, hardwareConcurrency := .ok none,
    deviceMemory := .ok none, maxTouchPoints := .ok none,
    screenWidth := .ok none, screenHeight := .ok none,
    screenColorDepth := .ok none, screenPixelDepth := .ok none,
    availWidth := .ok none, availHeight := .ok none,
    timezone := .ok none, timezoneOffset := .ok 0,
    canvasProbe := .error (), cookieEnabled := .ok none,
    doNotTrack := .ok none, plugins := .ok none,
    webglProbe := .error () }

/-- C8 witness: the guarded theorem applied to `allAbsentEnv`. -/
theorem collectSignals_guarded_witness :
    ∃ s : Signals,
      collectSignals allAbsentEnv = .ok s ∧
      (signalsToPairs s).map Prod.fst = signalKeys ∧
      s.canvas = "" ∧ s.webgl = "" ∧ s.userAgent = "" ∧
      s.hardwareConcurrency = 0 := by
  obtain ⟨s, h1, h2, h3, h4, h5, _, h7, _⟩ :=
    collectSignals_guarded allAbsentEnv
      ⟨⟨none, rfl⟩, ⟨none, rfl⟩, ⟨none, rfl⟩, ⟨none, rfl⟩, ⟨none, rfl⟩,
       ⟨none, rfl⟩, ⟨none, rfl⟩, ⟨none, rfl⟩, ⟨none, rfl⟩, ⟨none, rfl⟩,
       ⟨none, rfl⟩, ⟨none, rfl⟩, ⟨none, rfl⟩, ⟨none, rfl⟩, ⟨0, rfl⟩,
       ⟨none, rfl⟩, ⟨none, rfl⟩, ⟨none, rfl⟩⟩
  exact ⟨s, h1, h2, h3 rfl, h4 rfl, h5 rfl, h7 rfl⟩

/-- Environment where only the timezone probe throws (e.g. a missing
`Intl`); every other probe is benign. -/
def throwingTimezoneEnv : BrowserEnv :=
  { allAbsentEnv with
      timezone := .error ()
      canvasProbe := .ok none
      webglProbe := .ok none }

/-- C8 counterexample: the timezone probe is not wrapped in any
`try/catch` inside `collectSignals`, so its exception aborts the whole
collection — the collector does throw, and no full-key-set signals
object is produced. -/
theorem collectSignals_can_throw :
    collectSignals throwingTimezoneEnv = .error () := by decide

/-! ### Voter registrar and vote submitter theorems (C1, C2, C3, C9) -/

/-- The store state after the uniqueness-respecting insert of a fresh
voter row (abbreviation for the state `storeHandle` produces). -/
def insertVoterRow (db : DB) (fp : String) : DB :=
  { db with
      voters := db.voters ++ [⟨db.nextVoterId, fp⟩]
      nextVoterId := db.nextVoterId + 1 }

/-- The store state after the insert of a fresh vote row. -/
def insertVoteRow (db : DB) (voterId candidateId : Nat) : DB :=
  { db with
      votes := db.votes ++ [⟨db.nextVoteId, voterId, candidateId⟩]
      nextVoteId := db.nextVoteId + 1 }

/-- C1 (amended): when the initial read sees no voter row and the
insert is then rejected with HTTP 409 (the store's uniqueness
constraint rejecting a racing concurrent insert), `ensureVoter` does
NOT re-read the store: it throws the mapped `ALREADY_VOTED` ApiError to
its caller, having issued exactly the read and the insert. -/
theorem ensureVoter_conflict_throws
    (oracle : Nat → Except Unit HttpResp) (fp : String) (n : Nat)
    (body : Body)
    (h1 : oracle n = .ok ⟨200, .voters []⟩)
    (h2 : oracle (n + 1) = .ok ⟨409, body⟩) :
    runWith oracle (ensureVoterProg fp) n =
      (.error ⟨"You have already voted", 409, "ALREADY_VOTED"⟩,
        [.getVoters fp, .postVoter fp]) := by
  simp [runWith, ensureVoterProg, h1, h2, respOk, asVoters, mapError]

/-- C1 witness: the amended theorem at a concrete racing store. -/
theorem ensureVoter_conflict_throws_witness :
    runWith
      (fun n => if n = 0 then .ok ⟨200, .voters []⟩
        else .ok ⟨409, .obj (some "duplicate key")⟩)
      (ensureVoterProg "f1") 0 =
      (.error ⟨"You have already voted", 409, "ALREADY_VOTED"⟩,
        [.getVoters "f1", .postVoter "f1"]) :=
  ensureVoter_conflict_throws _ "f1" 0 (.obj (some "duplicate key"))
    (by decide) (by decide)

/-- C1 counterexample: at this concrete race (read sees nothing, the
store then rejects the insert with 409), `ensureVoter` surfaces the
`ALREADY_VOTED` error to its caller and issues no re-read (exactly two
requests) — contradicting the claim that it re-reads and returns the
now-existing row without surfacing an error. -/
theorem ensureVoter_race_surfaces_already_voted :
    runWith
      (fun n => if n = 0 then .ok ⟨200, .voters []⟩
        else .ok ⟨409, .obj none⟩)
      (ensureVoterProg "fp") 0 =
      (.error ⟨"You have already voted", 409, "ALREADY_VOTED"⟩,
        [.getVoters "fp", .postVoter "fp"]) := by decide

/-- C2: registration is idempotent — for any store state holding at
most one row per fingerprint (the store's uniqueness invariant), two
sequential `ensureVoter` calls return the same Voter, the store then
holds exactly one row for the fingerprint, and the second call leaves
the store unchanged. -/
theorem ensureVoter_idempotent (db : DB) (fp : String)
    (h : (db.voters.filter fun v => v.fingerprint == fp).length ≤ 1) :
    ∃ v : Voter,
      (runDB (ensureVoterProg fp) db).1 = .ok (some v) ∧
      (runDB (ensureVoterProg fp)
        (runDB (ensureVoterProg fp) db).2.1).1 = .ok (some v) ∧
      ((runDB (ensureVoterProg fp) db).2.1.voters.filter
        (fun w => w.fingerprint == fp)).length = 1 ∧
      (runDB (ensureVoterProg fp)
        (runDB (ensureVoterProg fp) db).2.1).2.1 =
        (runDB (ensureVoterProg fp) db).2.1 := by
  cases hF : db.voters.filter fun v => v.fingerprint == fp with
  | nil =>
    have hany : (db.voters.any fun v => v.fingerprint == fp) = false := by
      rw [List.any_eq_false]
      intro x hx
      rw [List.filter_eq_nil_iff] at hF
      exact fun hp => hF x hx hp
    have hs0 : storeHandle db (.getVoters fp) = (⟨200, .voters []⟩, db) := by
      simp [storeHandle, hF]
    have hs1 : storeHandle db (.postVoter fp) =
        (⟨201, .voters [⟨db.nextVoterId, fp⟩]⟩, insertVoterRow db fp) := by
      simp [storeHandle, insertVoterRow, hany]
    have hF1 : (insertVoterRow db fp).voters.filter
        (fun w => w.fingerprint == fp) = [⟨db.nextVoterId, fp⟩] := by
      simp [insertVoterRow, List.filter_append, hF]
    have hs2 : storeHandle (insertVoterRow db fp) (.getVoters fp) =
        (⟨200, .voters [⟨db.nextVoterId, fp⟩]⟩, insertVoterRow db fp) := by
      simp only [storeHandle, hF1]
    have hrun1 : runDB (ensureVoterProg fp) db =
        (.ok (some ⟨db.nextVoterId, fp⟩), insertVoterRow db fp,
          [.getVoters fp, .postVoter fp]) := by
      simp only [ensureVoterProg, runDB, hs0]
      simp only [runDB, hs1]
      simp [respOk, asVoters]
    have hrun2 : runDB (ensureVoterProg fp) (insertVoterRow db fp) =
        (.ok (some ⟨db.nextVoterId, fp⟩), insertVoterRow db fp,
          [.getVoters fp]) := by
      simp only [ensureVoterProg, runDB, hs2]
    refine ⟨⟨db.nextVoterId, fp⟩,
      by rw [hrun1], by rw [hrun1, hrun2], ?_, by rw [hrun1, hrun2]⟩
    rw [hrun1]
    simp [hF1]
  | cons v rest =>
    have hrest : rest = [] := by
      rw [hF] at h
      simp only [List.length_cons] at h
      have h0 : rest.length = 0 := by omega
      exact List.length_eq_zero.mp h0
    subst hrest
    have hs0 : storeHandle db (.getVoters fp) =
        (⟨200, .voters [v]⟩, db) := by
      simp [storeHandle, hF]
    have hrun1 : runDB (ensureVoterProg fp) db =
        (.ok (some v), db, [.getVoters fp]) := by
      simp only [ensureVoterProg, runDB, hs0]
    refine ⟨v, by rw [hrun1], by rw [hrun1, hrun1], ?_,
      by rw [hrun1, hrun1]⟩
    rw [hrun1]
    simp [hF]

/-- C2 witness: the idempotence theorem at the empty store. -/
theorem ensureVoter_idempotent_witness :
    ∃ v : Voter,
      (runDB (ensureVoterProg "fp") ⟨[], [], [], 0, 0⟩).1 = .ok (some v) ∧
      (runDB (ensureVoterProg "fp")
        (runDB (ensureVoterProg "fp") ⟨[], [], [], 0, 0⟩).2.1).1 =
        .ok (some v) ∧
      ((runDB (ensureVoterProg "fp") ⟨[], [], [], 0, 0⟩).2.1.voters.filter
        (fun w => w.fingerprint == "fp")).length = 1 ∧
      (runDB (ensureVoterProg "fp")
        (runDB (ensureVoterProg "fp") ⟨[], [], [], 0, 0⟩).2.1).2.1 =
        (runDB (ensureVoterProg "fp") ⟨[], [], [], 0, 0⟩).2.1 :=
  ensureVoter_idempotent ⟨[], [], [], 0, 0⟩ "fp" (by decide)

/-- C3: for a voter with no stored vote, the first `submitVote` stores
exactly one Vote (issuing a single insert request and no read — the
store's uniqueness constraint is the sole rejection path), and a
second submission returns the `ALREADY_VOTED` error while leaving the
stored votes unchanged, again via a single insert request. -/
theorem submitVote_duplicate_rejected (db : DB)
    (voterId candidateId : Nat)
    (h : ∀ v ∈ db.votes, v.voter_id ≠ voterId) :
    ∃ v : Vote,
      (runDB (submitVoteProg voterId candidateId) db).1 = .ok (some v) ∧
      (runDB (submitVoteProg voterId candidateId) db).2.1.votes =
        db.votes ++ [v] ∧
      v.voter_id = voterId ∧ v.candidate_id = candidateId ∧
      (runDB (submitVoteProg voterId candidateId) db).2.2 =
        [.postVote voterId candidateId] ∧
      (runDB (submitVoteProg voterId candidateId)
        (runDB (submitVoteProg voterId candidateId) db).2.1).1 =
        .error ⟨"You have already voted", 409, "ALREADY_VOTED"⟩ ∧
      (runDB (submitVoteProg voterId candidateId)
        (runDB (submitVoteProg voterId candidateId) db).2.1).2.1.votes =
        db.votes ++ [v] ∧
      (runDB (submitVoteProg voterId candidateId)
        (runDB (submitVoteProg voterId candidateId) db).2.1).2.2 =
        [.postVote voterId candidateId] := by
  have hany : (db.votes.any fun v => v.voter_id == voterId) = false := by
    rw [List.any_eq_false]
    intro x hx
    simpa using h x hx
  have hs1 : storeHandle db (.postVote voterId candidateId) =
      (⟨201, .votes [⟨db.nextVoteId, voterId, candidateId⟩]⟩,
        insertVoteRow db voterId candidateId) := by
    simp [storeHandle, insertVoteRow, hany]
  have hany2 : ((insertVoteRow db voterId candidateId).votes.any
      fun v => v.voter_id == voterId) = true := by
    simp [insertVoteRow, List.any_append]
  have hs2 : storeHandle (insertVoteRow db voterId candidateId)
      (.postVote voterId candidateId) =
      (⟨409, .obj (some "duplicate key value violates unique constraint")⟩,
        insertVoteRow db voterId candidateId) := by
    simp only [storeHandle, hany2, if_pos]
  have hrun1 : runDB (submitVoteProg voterId candidateId) db =
      (.ok (some ⟨db.nextVoteId, voterId, candidateId⟩),
        insertVoteRow db voterId candidateId,
        [.postVote voterId candidateId]) := by
    simp only [submitVoteProg, runDB, hs1]
    simp [respOk, asVotes]
  have hrun2 : runDB (submitVoteProg voterId candidateId)
      (insertVoteRow db voterId candidateId) =
      (.error ⟨"You have already voted", 409, "ALREADY_VOTED"⟩,
        insertVoteRow db voterId candidateId,
        [.postVote voterId candidateId]) := by
    simp only [submitVoteProg, runDB, hs2]
    simp [respOk, mapError]
  refine ⟨⟨db.nextVoteId, voterId, candidateId⟩, by rw [hrun1],
    ?_, rfl, rfl, by rw [hrun1], by rw [hrun1, hrun2],
    ?_, by rw [hrun1, hrun2]⟩
  · rw [hrun1]
    simp [insertVoteRow]
  · rw [hrun1, hrun2]
    simp [insertVoteRow]

/-- C3 witness: the duplicate-rejection theorem at a concrete store. -/
theorem submitVote_duplicate_rejected_witness :
    ∃ v : Vote,
      (runDB (submitVoteProg 7 1) ⟨[⟨7, "fp"⟩], [], [], 8, 0⟩).1 =
        .ok (some v) ∧
      (runDB (submitVoteProg 7 1) ⟨[⟨7, "fp"⟩], [], [], 8, 0⟩).2.1.votes =
        [] ++ [v] ∧
      v.voter_id = 7 ∧ v.candidate_id = 1 ∧
      (runDB (submitVoteProg 7 1) ⟨[⟨7, "fp"⟩], [], [], 8, 0⟩).2.2 =
        [.postVote 7 1] ∧
      (runDB (submitVoteProg 7 1)
        (runDB (submitVoteProg 7 1) ⟨[⟨7, "fp"⟩], [], [], 8, 0⟩).2.1).1 =
        .error ⟨"You have already voted", 409, "ALREADY_VOTED"⟩ ∧
      (runDB (submitVoteProg 7 1)
        (runDB (submitVoteProg 7 1)
          ⟨[⟨7, "fp"⟩], [], [], 8, 0⟩).2.1).2.1.votes = [] ++ [v] ∧
      (runDB (submitVoteProg 7 1)
        (runDB (submitVoteProg 7 1) ⟨[⟨7, "fp"⟩], [], [], 8, 0⟩).2.1).2.2 =
        [.postVote 7 1] :=
  submitVote_duplicate_rejected ⟨[⟨7, "fp"⟩], [], [], 8, 0⟩ 7 1
    (by decide)

/-- Every error produced by `mapError` carries one of the five mapped
codes. -/
theorem mapError_code_mem (s : Nat) (d : Option String) :
    (mapError s d).code ∈ (["ALREADY_VOTED", "INVALID_DATA",
      "RATE_LIMIT", "SERVER_ERROR", "UNKNOWN_ERROR"] : List String) := by
  unfold mapError
  split_ifs <;> simp

/-- The full error-code taxonomy of the API layer. -/
def apiErrorCodes : List String :=
  ["ALREADY_VOTED", "INVALID_DATA", "RATE_LIMIT", "SERVER_ERROR",
   "UNKNOWN_ERROR", "NETWORK_ERROR"]

/-- C9 (amended): `fetchCandidates`, `ensureVoter` and `submitVote`
deliver success as raw data and failure by THROWING a typed `ApiError`
(caught by the UI layer) — not as a `{ success: boolean }` record.
Every failure that surfaces is a classified `ApiError` whose code lies
in the fixed taxonomy, for every store behavior (any responses, any
transport failures). -/
theorem operations_throw_typed_apierrors :
    (∀ (oracle : Nat → Except Unit HttpResp) (fp : String) (n : Nat)
        (e : ApiError),
      (runWith oracle (ensureVoterProg fp) n).1 = .error e →
      e.code ∈ apiErrorCodes) ∧
    (∀ (oracle : Nat → Except Unit HttpResp)
        (voterId candidateId n : Nat) (e : ApiError),
      (runWith oracle (submitVoteProg voterId candidateId) n).1 =
        .error e →
      e.code ∈ apiErrorCodes) ∧
    (∀ (oracle : Nat → Except Unit HttpResp) (n : Nat) (e : ApiError),
      (runWith oracle fetchCandidatesProg n).1 = .error e →
      e.code ∈ apiErrorCodes) := by
  have hmap : ∀ (s : Nat) (d : Option String) (e : ApiError),
      e = mapError s d → e.code ∈ apiErrorCodes := by
    intro s d e he
    subst he
    have := mapError_code_mem s d
    simp only [apiErrorCodes, List.mem_cons, List.not_mem_nil,
      or_false] at this ⊢
    tauto
  refine ⟨?_, ?_, ?_⟩
  · intro oracle fp n e he
    simp only [ensureVoterProg, runWith] at he
    cases h0 : oracle n with
    | error u =>
      rw [h0] at he
      simp [runWith] at he
      subst he
      simp [apiErrorCodes, registerNetworkError]
    | ok resp =>
      rw [h0] at he
      simp only at he
      by_cases hok : respOk resp.status
      · rw [if_pos hok] at he
        cases hv : asVoters resp.body with
        | cons w l =>
          rw [hv] at he
          simp [runWith] at he
        | nil =>
          rw [hv] at he
          simp only [runWith] at he
          cases h1 : oracle (n + 1) with
          | error u =>
            rw [h1] at he
            simp [runWith] at he
            subst he
            simp [apiErrorCodes, registerNetworkError]
          | ok resp2 =>
            rw [h1] at he
            simp only at he
            by_cases hok2 : respOk resp2.status
            · rw [if_pos hok2] at he
              simp [runWith] at he
            · rw [if_neg hok2] at he
              simp [runWith] at he
              exact hmap _ _ _ he.symm
      · rw [if_neg hok] at he
        simp only [runWith] at he
        cases h1 : oracle (n + 1) with
        | error u =>
          rw [h1] at he
          simp [runWith] at he
          subst he
          simp [apiErrorCodes, registerNetworkError]
        | ok resp2 =>
          rw [h1] at he
          simp only at he
          by_cases hok2 : respOk resp2.status
          · rw [if_pos hok2] at he
            simp [runWith] at he
          · rw [if_neg hok2] at he
            simp [runWith] at he
            exact hmap _ _ _ he.symm
  · intro oracle voterId candidateId n e he
    simp only [submitVoteProg, runWith] at he
    cases h0 : oracle n with
    | error u =>
      rw [h0] at he
      simp [runWith] at he
      subst he
      simp [apiErrorCodes]
    | ok resp =>
      rw [h0] at he
      simp only at he
      by_cases hok : respOk resp.status
      · rw [if_pos hok] at he
        simp [runWith] at he
      · rw [if_neg hok] at he
        simp [runWith] at he
        exact hmap _ _ _ he.symm
  · intro oracle n e he
    simp only [fetchCandidatesProg, runWith] at he
    cases h0 : oracle n with
    | error u =>
      rw [h0] at he
      simp [runWith] at he
      subst he
      simp [apiErrorCodes]
    | ok resp =>
      rw [h0] at he
      simp only at he
      by_cases hok : respOk resp.status
      · rw [if_pos hok] at he
        simp [runWith] at he
      · rw [if_neg hok] at he
        simp [runWith] at he
        exact hmap _ _ _ he.symm

/-- C9 witness: the taxonomy theorem applied to `ensureVoter` against
a transport that always fails. -/
theorem operations_throw_typed_apierrors_witness :
    (runWith (fun _ => .error ()) (ensureVoterProg "f9") 0).1 =
      .error registerNetworkError ∧
    "NETWORK_ERROR" ∈ apiErrorCodes := by
  have h := operations_throw_typed_apierrors.1 (fun _ => .error ())
    "f9" 0 registerNetworkError (by decide)
  exact ⟨by decide, by simpa [registerNetworkError] using h⟩

/-- C9 counterexample: against a store answering 500 on every attempt,
`fetchCandidates` resolves by throwing an `ApiError` — its outcome
reaching the UI layer is an exception, not a
`{ success: false }`-shaped value. -/
theorem fetchCandidates_surfaces_exception :
    runWith (fun _ => .ok ⟨500, .obj none⟩) fetchCandidatesProg 0 =
      (.error ⟨"Server error. Please try again", 500, "SERVER_ERROR"⟩,
        [.getCandidates]) := by decide

end Voting

section Evaluations

example :
    Voting.fetchWithRetry (fun _ => some 503) 0 =
      (.ok 503, 4, [1000, 2000, 4000]) := by
  simp [Voting.fetchWithRetry, Voting.respOk, Voting.MAX_RETRIES,
    Voting.RETRY_DELAY]

example :
    Voting.fetchWithRetry (fun _ => none) 0 =
      (.error (), 4, [1000, 2000, 4000]) := by
  simp [Voting.fetchWithRetry, Voting.respOk, Voting.MAX_RETRIES,
    Voting.RETRY_DELAY]

example :
    Voting.fetchWithRetry (fun _ => some 422) 0 = (.ok 422, 1, []) := by
  simp [Voting.fetchWithRetry, Voting.respOk, Voting.MAX_RETRIES,
    Voting.RETRY_DELAY]

example : (Voting.mapError 404 (some "nope")).code = "UNKNOWN_ERROR" := by
  decide

-- "abc" has codes 97 98 99; h: 0 → 97 → 3105 → 96354 = "22ci" base 36
example : Voting.fallbackHash [97, 98, 99] = "22ci" := by decide

example : Voting.hexEncode [0, 255, 16] = "00ff10" := by decide

example :
    Voting.canonicalStringify [("b", .str "x"), ("a", .num 1)] =
      "\x7b\"a\":1,\"b\":\"x\"\x7d" := by decide

example :
    Voting.jsStringify [("b", .str "x"), ("a", .num 1)] =
      "\x7b\"b\":\"x\",\"a\":1\x7d" := by decide

example :
    Voting.jsStringify [("a", .str "x"), ("c", .undef), ("b", .bool true)] =
      "\x7b\"a\":\"x\",\"b\":true\x7d" := by decide

-- the race: GET sees no row, POST is rejected 409 by the constraint
example :
    Voting.runWith
      (fun n => if n = 0 then .ok ⟨200, .voters []⟩
        else .ok ⟨409, .obj (some "duplicate key")⟩)
      (Voting.ensureVoterProg "fp") 0 =
      (.error ⟨"You have already voted", 409, "ALREADY_VOTED"⟩,
        [.getVoters "fp", .postVoter "fp"]) := by decide

-- a fresh fingerprint against the deterministic store
example :
    Voting.runDB (Voting.ensureVoterProg "fp")
      ⟨[], [], [], 7, 0⟩ =
      (.ok (some ⟨7, "fp"⟩), ⟨[⟨7, "fp"⟩], [], [], 8, 0⟩,
        [.getVoters "fp", .postVoter "fp"]) := by decide

-- duplicate vote rejected on the second submit
example :
    (Voting.runDB (Voting.submitVoteProg 7 1)
      ⟨[⟨7, "fp"⟩], [⟨0, 7, 1⟩], [], 8, 1⟩).1 =
      .error ⟨"You have already voted", 409, "ALREADY_VOTED"⟩ := by decide

end Evaluations
